import Mathlib

/-!
Shallow embedding of the tinyedit terminal editor (src/main.rs) and proofs
about its buffer, cursor, viewport and input-decoding operations.

Modelling conventions:
* A byte is a `Nat` (all byte values in the program are < 256).
* A line (`Vec<u8>` in the source) is a `List Nat`; the buffer
  (`Vec<Vec<u8>>`) is a `List (List Nat)`.
* Rust `usize` values are `Nat`.  Subtractions that the source guards
  against underflow are plain `Nat` subtraction (identical semantics in
  the guarded range); the two unguarded subtractions
  (`file[y±1].len() - 1` in the vertical cursor moves) are modelled with
  `usizeSub`, which wraps modulo 2^64 exactly as a release-build usize
  subtraction does (a debug build would panic at the same inputs).
* `Vec` indexing `file[i]` is modelled by `List.getD i []`; every theorem
  that depends on an indexed access carries the bounds hypothesis under
  which the Rust indexing does not panic.
* Fields of `EditorState` that no claim mentions and that require real IO
  (`screen_buffer`, `user_input`) are omitted; the save operation's
  environment (outcome of `fs::write`, result of the "Save As" prompt) is
  passed as explicit parameters.
-/

namespace TinyEdit

/-- Number of display cells a tab advances to a multiple of (`TAB_SPACES`). -/
def TAB_SPACES : Nat := 4

/-- Size of the Rust `usize` value space on the 64-bit targets the editor builds for. -/
def USIZE : Nat := 2 ^ 64

/-- Rust `usize` subtraction.  In a release build an underflow wraps modulo
2^64 (in a debug build the same subtraction panics); within bounds it is
ordinary subtraction. -/
def usizeSub (a b : Nat) : Nat :=
  if b ≤ a then a - b else USIZE - (b - a)

/-- The `Key` enum of the source. -/
inductive Key : Type where
  | Backspace : Key
  | Newline : Key
  | Escape : Key
  | CtrlS : Key
  | CtrlQ : Key
  | Char : Nat → Key
  | UpArrow : Key
  | DownArrow : Key
  | LeftArrow : Key
  | RightArrow : Key
deriving DecidableEq, Repr

/-- Classification of the 3-byte read window in `process_input`
(the `match &buffer` arm sequence, in source order). -/
def classify_key (b0 b1 b2 : Nat) : Key :=
  if b0 = 27 ∧ b1 = 91 ∧ b2 = 65 then Key.UpArrow
  else if b0 = 27 ∧ b1 = 91 ∧ b2 = 66 then Key.DownArrow
  else if b0 = 27 ∧ b1 = 91 ∧ b2 = 67 then Key.RightArrow
  else if b0 = 27 ∧ b1 = 91 ∧ b2 = 68 then Key.LeftArrow
  else if b0 = 127 then Key.Backspace
  else if b0 = 10 then Key.Newline
  else if b0 = 27 then Key.Escape
  else if b0 = 19 then Key.CtrlS
  else if b0 = 17 then Key.CtrlQ
  else Key.Char b0

/-- The `EditorState` struct (the IO-only fields `screen_buffer` and
`user_input` are omitted). -/
structure EditorState : Type where
  cursor_x : Nat
  cursor_y : Nat
  current_column : Nat
  current_row : Nat
  file : List (List Nat)
  filename : String
  menu_info : String
  rendered_x : Nat
  terminal_cols : Nat
  terminal_rows : Nat
deriving DecidableEq, Repr

/-- The line `file[i]`; Rust panics when `i` is out of bounds, the model
returns `[]` (theorems carry the in-bounds hypothesis). -/
def lineAt (st : EditorState) (i : Nat) : List Nat :=
  st.file.getD i []

/-- `move_cursor_up`. -/
def move_cursor_up (st : EditorState) : EditorState :=
  if st.cursor_y > 0 then
    if st.cursor_x < (lineAt st (st.cursor_y - 1)).length then
      { st with cursor_y := st.cursor_y - 1 }
    else
      { st with cursor_x := usizeSub (lineAt st (st.cursor_y - 1)).length 1,
                cursor_y := st.cursor_y - 1 }
  else st

/-- `move_cursor_down`. -/
def move_cursor_down (st : EditorState) : EditorState :=
  if st.cursor_y + 1 < st.file.length then
    if st.cursor_x < (lineAt st (st.cursor_y + 1)).length + 1 then
      { st with cursor_y := st.cursor_y + 1 }
    else
      { st with cursor_x := usizeSub (lineAt st (st.cursor_y + 1)).length 1,
                cursor_y := st.cursor_y + 1 }
  else st

/-- `move_cursor_left`. -/
def move_cursor_left (st : EditorState) : EditorState :=
  if st.cursor_x ≠ 0 then { st with cursor_x := st.cursor_x - 1 } else st

/-- `move_cursor_right`. -/
def move_cursor_right (st : EditorState) : EditorState :=
  if st.cursor_x + 1 < (lineAt st st.cursor_y).length then
    { st with cursor_x := st.cursor_x + 1 }
  else st

/-- `delete_character` (backspace). -/
def delete_character (st : EditorState) : EditorState :=
  if st.cursor_x > 0 then
    { st with
        file := st.file.set st.cursor_y
          ((lineAt st st.cursor_y).eraseIdx (st.cursor_x - 1)),
        cursor_x := st.cursor_x - 1 }
  else if st.cursor_y > 0 then
    let prev := (lineAt st (st.cursor_y - 1)).dropLast
    { st with
        file := (st.file.set (st.cursor_y - 1)
          (prev ++ lineAt st st.cursor_y)).eraseIdx st.cursor_y,
        cursor_x := prev.length,
        cursor_y := st.cursor_y - 1 }
  else st

/-- `insert_newline`. -/
def insert_newline (st : EditorState) : EditorState :=
  let line := lineAt st st.cursor_y
  { st with
      file := List.insertIdx (st.cursor_y + 1) (line.drop st.cursor_x)
        (st.file.set st.cursor_y (line.take st.cursor_x ++ [10])),
      cursor_x := 0,
      cursor_y := st.cursor_y + 1 }

/-- `insert_character`. -/
def insert_character (st : EditorState) (ch : Nat) : EditorState :=
  { st with
      file := st.file.set st.cursor_y
        (List.insertIdx st.cursor_x ch (lineAt st st.cursor_y)),
      cursor_x := st.cursor_x + 1 }

/-- One step of the loop body of `get_render_cursor_x`. -/
def renderStep (rendered : Nat) (b : Nat) : Nat :=
  if b = 9 then rendered + (TAB_SPACES - rendered % TAB_SPACES) else rendered + 1

/-- `get_render_cursor_x`: the tab-expanded column of the cursor, walking
`file[cursor_y][0..cursor_x]`. -/
def get_render_cursor_x (st : EditorState) : Nat :=
  ((lineAt st st.cursor_y).take st.cursor_x).foldl renderStep 0

/-- `scroll_screen`: recompute `rendered_x`, then the four scroll-offset
adjustments, in source order.  The final subtraction
`cursor_x - terminal_cols.saturating_sub(1)` cannot underflow under its
guard, so plain `Nat` subtraction is exact. -/
def scroll_screen (st : EditorState) : EditorState :=
  let st1 := { st with rendered_x := get_render_cursor_x st }
  let st2 :=
    if st1.cursor_y < st1.current_row then
      { st1 with current_row := st1.cursor_y } else st1
  let st3 :=
    if st2.cursor_y ≥ st2.current_row + (st2.terminal_rows - 1) then
      { st2 with current_row := st2.cursor_y - (st2.terminal_rows - 2) } else st2
  let st4 :=
    if st3.rendered_x < st3.current_column then
      { st3 with current_column := st3.rendered_x } else st3
  if st4.cursor_x ≥ st4.current_column + st4.terminal_cols then
    { st4 with current_column := st4.cursor_x - (st4.terminal_cols - 1) }
  else st4

/-- The accumulating loop of `load_file`: `current` is the line being
built, the returned list is the remaining lines in order. -/
def load_lines : List Nat → List Nat → List (List Nat)
  | current, [] => if current.isEmpty then [] else [current]
  | current, b :: rest =>
    if b = 10 then (current ++ [10]) :: load_lines [] rest
    else load_lines (current ++ [b]) rest

/-- `load_file` on successfully read raw bytes. -/
def load_file (content : List Nat) : List (List Nat) :=
  load_lines [] content

/-- The bytes `save_file` writes: `file.iter().flat_map(|line| ...)`. -/
def save_content (file : List (List Nat)) : List Nat :=
  file.flatMap (fun line => line)

/-- `save_file`.  `promptResult` is what the "Save As:" prompt would
return when the filename is empty; `writeOk` is the outcome of
`fs::write`. -/
def save_file (promptResult : String) (writeOk : Bool) (st : EditorState) :
    EditorState :=
  let st1 :=
    if st.filename = "" then { st with filename := promptResult } else st
  if st1.filename = "" then st1
  else if writeOk then
    { st1 with menu_info := "Saved file: " ++ st1.filename }
  else
    { st1 with menu_info := "Invalid filename or directory: " ++ st1.filename,
               filename := "" }

/-- Fold a list of character insertions (`Key.Char` events) into the state. -/
def insert_chars : EditorState → List Nat → EditorState
  | st, [] => st
  | st, ch :: rest => insert_chars (insert_character st ch) rest

/-- Iterate `delete_character` (backspace) `k` times. -/
def delete_chars : Nat → EditorState → EditorState
  | 0, st => st
  | k + 1, st => delete_character (delete_chars k st)

/-- A concrete state used to instantiate counterexamples and witnesses. -/
def baseState : EditorState :=
  { cursor_x := 0, cursor_y := 0, current_column := 0, current_row := 0,
    file := [[]], filename := "", menu_info := "", rendered_x := 0,
    terminal_cols := 80, terminal_rows := 24 }

/-- Setting an in-bounds index back to the value it already holds is the
identity. -/
theorem set_getD_self : ∀ (l : List (List Nat)) (n : Nat), n < l.length →
    l.set n (l.getD n []) = l
  | [], n, h => absurd h (by simp)
  | a :: l, 0, _ => rfl
  | a :: l, n + 1, h =>
    congrArg (List.cons a) (set_getD_self l n (Nat.lt_of_succ_lt_succ h))

/-- Reading back an in-bounds `set`. -/
theorem getD_set_self : ∀ (l : List (List Nat)) (n : Nat) (v : List Nat), n < l.length →
    (l.set n v).getD n [] = v
  | [], n, v, h => absurd h (by simp)
  | a :: l, 0, v, _ => rfl
  | a :: l, n + 1, v, h => getD_set_self l n v (Nat.lt_of_succ_lt_succ h)

/-- Inserting at index `y + 1` leaves index `y` unchanged. -/
theorem getD_insertIdx_succ_lt : ∀ (l : List (List Nat)) (y : Nat) (v : List Nat),
    (List.insertIdx (y + 1) v l).getD y [] = l.getD y []
  | [], y, v => by simp
  | a :: l, 0, v => rfl
  | a :: l, y + 1, v => by
    simpa [List.insertIdx_succ_cons, List.getD_cons_succ] using
      getD_insertIdx_succ_lt l y v

/-- Reading back an in-bounds insertion at the inserted index. -/
theorem getD_insertIdx_self : ∀ (l : List (List Nat)) (n : Nat) (v : List Nat), n ≤ l.length →
    (List.insertIdx n v l).getD n [] = v
  | _, 0, v, _ => rfl
  | [], n + 1, v, h => absurd h (by simp)
  | a :: l, n + 1, v, h => getD_insertIdx_self l n v (Nat.le_of_succ_le_succ h)

/-- `set` below an insertion point commutes with the insertion. -/
theorem set_insertIdx_succ_comm : ∀ (l : List (List Nat)) (y : Nat) (v u : List Nat),
    (List.insertIdx (y + 1) v l).set y u = List.insertIdx (y + 1) v (l.set y u)
  | [], y, v, u => by simp
  | a :: l, 0, v, u => rfl
  | a :: l, y + 1, v, u => by
    simpa [List.insertIdx_succ_cons] using set_insertIdx_succ_comm l y v u

/-- A single backspace undoes a single character insertion at a valid
cursor. -/
theorem insert_delete_step (st : EditorState) (ch : Nat)
    (hy : st.cursor_y < st.file.length)
    (hx : st.cursor_x ≤ (lineAt st st.cursor_y).length) :
    delete_character (insert_character st ch) = st := by
  unfold delete_character insert_character
  simp only [Nat.succ_sub_one, gt_iff_lt, Nat.succ_pos, if_pos, lineAt]
  rw [getD_set_self _ _ _ (by simpa using hy)]
  rw [List.eraseIdx_insertIdx, List.set_set]
  rw [set_getD_self _ _ hy]

/-- Claim C6: the input decoder classifies a 3-byte read window by fixed
prefix: `27 91 65/66/67/68` are the four arrows; first byte 127 is
Backspace, 10 is Newline, 27 (not starting a recognized 3-byte sequence)
is bare Escape, 19 is the save control, 17 is the quit control, and any
other first byte is a literal character equal to that byte; trailing
zero-filled buffer slots do not affect the result. -/
theorem claim_C6 (b0 b1 b2 : Nat) :
    classify_key 27 91 65 = Key.UpArrow ∧
    classify_key 27 91 66 = Key.DownArrow ∧
    classify_key 27 91 67 = Key.RightArrow ∧
    classify_key 27 91 68 = Key.LeftArrow ∧
    (b0 = 127 → classify_key b0 b1 b2 = Key.Backspace) ∧
    (b0 = 10 → classify_key b0 b1 b2 = Key.Newline) ∧
    (b0 = 27 → ¬(b1 = 91 ∧ (b2 = 65 ∨ b2 = 66 ∨ b2 = 67 ∨ b2 = 68)) →
      classify_key b0 b1 b2 = Key.Escape) ∧
    (b0 = 19 → classify_key b0 b1 b2 = Key.CtrlS) ∧
    (b0 = 17 → classify_key b0 b1 b2 = Key.CtrlQ) ∧
    (b0 ≠ 27 → b0 ≠ 127 → b0 ≠ 10 → b0 ≠ 19 → b0 ≠ 17 →
      classify_key b0 b1 b2 = Key.Char b0) ∧
    classify_key b0 b1 0 = classify_key b0 0 0 := by
  refine ⟨by decide, by decide, by decide, by decide, ?_, ?_, ?_, ?_, ?_, ?_, ?_⟩ <;>
    · intros
      unfold classify_key
      split_ifs <;> simp_all

/-- Claim C6 witness: the classification at concrete windows, obtained from
`claim_C6`. -/
theorem claim_C6_witness :
    classify_key 127 0 0 = Key.Backspace ∧
    classify_key 10 0 0 = Key.Newline ∧
    classify_key 27 91 70 = Key.Escape ∧
    classify_key 19 0 0 = Key.CtrlS ∧
    classify_key 17 0 0 = Key.CtrlQ ∧
    classify_key 120 121 122 = Key.Char 120 ∧
    classify_key 27 91 0 = classify_key 27 0 0 :=
  ⟨(claim_C6 127 0 0).2.2.2.2.1 rfl,
   (claim_C6 10 0 0).2.2.2.2.2.1 rfl,
   (claim_C6 27 91 70).2.2.2.2.2.2.1 rfl (by decide),
   (claim_C6 19 0 0).2.2.2.2.2.2.2.1 rfl,
   (claim_C6 17 0 0).2.2.2.2.2.2.2.2.1 rfl,
   (claim_C6 120 121 122).2.2.2.2.2.2.2.2.2.1 (by decide) (by decide) (by decide)
     (by decide) (by decide),
   (claim_C6 27 91 5).2.2.2.2.2.2.2.2.2.2⟩

/-- Claim C8: the bytes written by a save are exactly the concatenation of
all lines in order, adding no bytes; a buffer with lines "abc\n", "def"
writes exactly the bytes of "abc\ndef". -/
theorem claim_C8 :
    (∀ file : List (List Nat),
      save_content file = file.flatten ∧
      (save_content file).length = (file.map List.length).sum) ∧
    save_content [[97, 98, 99, 10], [100, 101, 102]] =
      [97, 98, 99, 10, 100, 101, 102] := by
  refine ⟨fun file => ⟨?_, ?_⟩, by decide⟩
  · induction file with
    | nil => rfl
    | cons a l ih => simp [save_content, List.flatMap_cons] at ih ⊢; exact ih
  · induction file with
    | nil => rfl
    | cons a l ih => simp [save_content, List.flatMap_cons] at ih ⊢; omega

/-- Claim C10: `move_cursor_right` advances the column exactly when
`column + 1 < line length` and otherwise leaves the state unchanged;
in particular, starting from a column strictly inside the line, a right
move never reaches the position equal to the line's length. -/
theorem claim_C10 (st : EditorState) :
    (st.cursor_x + 1 < (lineAt st st.cursor_y).length →
      move_cursor_right st = { st with cursor_x := st.cursor_x + 1 }) ∧
    (¬ st.cursor_x + 1 < (lineAt st st.cursor_y).length →
      move_cursor_right st = st) ∧
    (st.cursor_x < (lineAt st st.cursor_y).length →
      (move_cursor_right st).cursor_x <
        (lineAt (move_cursor_right st) (move_cursor_right st).cursor_y).length) := by
  refine ⟨fun h => ?_, fun h => ?_, fun h => ?_⟩ <;>
    unfold move_cursor_right <;> split_ifs with hc <;>
      simp_all [lineAt] <;> omega

/-- Claim C10 witness: `claim_C10` applied to a concrete one-line buffer
"ab\n" at columns 0 and 2. -/
theorem claim_C10_witness :
    move_cursor_right { baseState with file := [[97, 98, 10]] } =
      { baseState with file := [[97, 98, 10]], cursor_x := 1 } ∧
    move_cursor_right { baseState with file := [[97, 98, 10]], cursor_x := 2 } =
      { baseState with file := [[97, 98, 10]], cursor_x := 2 } ∧
    (move_cursor_right { baseState with file := [[97, 98, 10]], cursor_x := 2 }).cursor_x <
      (lineAt (move_cursor_right { baseState with file := [[97, 98, 10]], cursor_x := 2 })
        (move_cursor_right { baseState with file := [[97, 98, 10]], cursor_x := 2 }).cursor_y).length :=
  ⟨(claim_C10 _).1 (by decide), (claim_C10 _).2.1 (by decide),
   (claim_C10 _).2.2 (by decide)⟩

/-- Claim C9: when the underlying write fails, the save operation sets the
status line to "Invalid filename or directory: " followed by the attempted
path, clears the filename, and leaves the text buffer and cursor
unchanged. -/
theorem claim_C9 (promptResult : String) (st : EditorState)
    (h : st.filename ≠ "" ∨ promptResult ≠ "") :
    (save_file promptResult false st).menu_info =
      "Invalid filename or directory: " ++
        (if st.filename = "" then promptResult else st.filename) ∧
    (save_file promptResult false st).filename = "" ∧
    (save_file promptResult false st).file = st.file ∧
    (save_file promptResult false st).cursor_x = st.cursor_x ∧
    (save_file promptResult false st).cursor_y = st.cursor_y := by
  unfold save_file
  by_cases hf : st.filename = ""
  · have hp : promptResult ≠ "" := by tauto
    simp [hf, hp]
  · simp [hf]

/-- Claim C9 witness: `claim_C9` applied to a concrete state whose filename
is "out.txt". -/
theorem claim_C9_witness :
    (save_file "" false { baseState with filename := "out.txt" }).menu_info =
      "Invalid filename or directory: out.txt" ∧
    (save_file "" false { baseState with filename := "out.txt" }).filename = "" ∧
    (save_file "" false { baseState with filename := "out.txt" }).file =
      ({ baseState with filename := "out.txt" } : EditorState).file ∧
    (save_file "" false { baseState with filename := "out.txt" }).cursor_x =
      ({ baseState with filename := "out.txt" } : EditorState).cursor_x ∧
    (save_file "" false { baseState with filename := "out.txt" }).cursor_y =
      ({ baseState with filename := "out.txt" } : EditorState).cursor_y := by
  have h := claim_C9 "" { baseState with filename := "out.txt" }
    (Or.inl (by decide))
  simpa using h

/-- Claim C1 counterexample: moving down from column 2 of "a\n" onto the
line "a\n" of length 2 (target length ≤ current column) leaves the column
at 2 instead of setting it to max(0, 2 − 1) = 1, so the up and down moves
do not share the claimed clamping rule. -/
theorem claim_C1_counterexample :
    (lineAt { baseState with file := [[97, 10], [97, 10]], cursor_x := 2 } 1).length ≤
      ({ baseState with file := [[97, 10], [97, 10]], cursor_x := 2 } : EditorState).cursor_x ∧
    (move_cursor_down { baseState with file := [[97, 10], [97, 10]], cursor_x := 2 }).cursor_x ≠
      max 0 ((lineAt { baseState with file := [[97, 10], [97, 10]], cursor_x := 2 } 1).length - 1) := by
  decide

/-- Claim C1 (amended): the up move clamps when the target line's length is
≤ the current column, the down move clamps only when the target line's
length is strictly less than the current column (a target of length equal
to the column is left unchanged); clamping onto a nonempty target sets the
column to target length − 1, and a longer target leaves the column
unchanged (the empty-target clamp branch underflows the usize subtraction
instead of yielding 0). -/
theorem claim_C1_amended (st : EditorState) :
    (0 < st.cursor_y → st.cursor_x < (lineAt st (st.cursor_y - 1)).length →
      move_cursor_up st = { st with cursor_y := st.cursor_y - 1 }) ∧
    (0 < st.cursor_y → (lineAt st (st.cursor_y - 1)).length ≤ st.cursor_x →
      0 < (lineAt st (st.cursor_y - 1)).length →
      move_cursor_up st = { st with cursor_y := st.cursor_y - 1, cursor_x := (lineAt st (st.cursor_y - 1)).length - 1 }) ∧
    (st.cursor_y + 1 < st.file.length →
      st.cursor_x ≤ (lineAt st (st.cursor_y + 1)).length →
      move_cursor_down st = { st with cursor_y := st.cursor_y + 1 }) ∧
    (st.cursor_y + 1 < st.file.length →
      (lineAt st (st.cursor_y + 1)).length < st.cursor_x →
      0 < (lineAt st (st.cursor_y + 1)).length →
      move_cursor_down st = { st with cursor_y := st.cursor_y + 1, cursor_x := (lineAt st (st.cursor_y + 1)).length - 1 }) := by
  refine ⟨fun hy h => ?_, fun hy h hn => ?_, fun hy h => ?_, fun hy h hn => ?_⟩
  · unfold move_cursor_up
    split_ifs <;> first | rfl | omega
  · have hs : usizeSub (lineAt st (st.cursor_y - 1)).length 1 =
        (lineAt st (st.cursor_y - 1)).length - 1 := by
      unfold usizeSub
      split_ifs <;> omega
    unfold move_cursor_up
    split_ifs <;> first | omega | rw [hs]
  · unfold move_cursor_down
    split_ifs <;> first | rfl | omega
  · have hs : usizeSub (lineAt st (st.cursor_y + 1)).length 1 =
        (lineAt st (st.cursor_y + 1)).length - 1 := by
      unfold usizeSub
      split_ifs <;> omega
    unfold move_cursor_down
    split_ifs <;> first | omega | rw [hs]

/-- Claim C1 witness: `claim_C1_amended` applied to the concrete buffer
["abc\n", "a\n", "abc\n"] from row 1. -/
theorem claim_C1_witness :
    move_cursor_up { baseState with file := [[97, 98, 99, 10], [97, 10], [97, 98, 99, 10]], cursor_y := 1, cursor_x := 1 } = { baseState with file := [[97, 98, 99, 10], [97, 10], [97, 98, 99, 10]], cursor_y := 0, cursor_x := 1 } ∧
    move_cursor_up { baseState with file := [[97, 10], [97, 98, 99, 10]], cursor_y := 1, cursor_x := 3 } = { baseState with file := [[97, 10], [97, 98, 99, 10]], cursor_y := 0, cursor_x := 1 } ∧
    move_cursor_down { baseState with file := [[97, 10], [97, 98, 99, 10]], cursor_x := 1 } = { baseState with file := [[97, 10], [97, 98, 99, 10]], cursor_y := 1, cursor_x := 1 } ∧
    move_cursor_down { baseState with file := [[97, 98, 99, 10], [97, 10]], cursor_x := 3 } = { baseState with file := [[97, 98, 99, 10], [97, 10]], cursor_y := 1, cursor_x := 1 } := by
  refine ⟨?_, ?_, ?_, ?_⟩
  · exact (claim_C1_amended { baseState with file := [[97, 98, 99, 10], [97, 10], [97, 98, 99, 10]], cursor_y := 1, cursor_x := 1 }).1 (by decide) (by decide)
  · exact (claim_C1_amended { baseState with file := [[97, 10], [97, 98, 99, 10]], cursor_y := 1, cursor_x := 3 }).2.1 (by decide) (by decide) (by decide)
  · exact (claim_C1_amended { baseState with file := [[97, 10], [97, 98, 99, 10]], cursor_x := 1 }).2.2.1 (by decide) (by decide)
  · exact (claim_C1_amended { baseState with file := [[97, 98, 99, 10], [97, 10]], cursor_x := 3 }).2.2.2 (by decide) (by decide) (by decide)

/-- Claim C2: the cursor-validity invariant is violated by the code. From
the valid state with buffer ["a\n", ""] and cursor (column 1, row 0) —
reachable by typing a, Newline, UpArrow, RightArrow from an empty buffer —
a single down move executes `file[1].len() - 1` with `len() = 0`: the
usize subtraction underflows (wrapping to 2^64 − 1 in a release build,
panicking in a debug build), leaving the column far beyond the new
current line's length 0. -/
theorem claim_C2_underflow :
    (({ baseState with file := [[97, 10], []], cursor_x := 1 } : EditorState).cursor_x ≤
        (lineAt { baseState with file := [[97, 10], []], cursor_x := 1 } 0).length ∧
      ({ baseState with file := [[97, 10], []], cursor_x := 1 } : EditorState).cursor_y <
        ({ baseState with file := [[97, 10], []], cursor_x := 1 } : EditorState).file.length) ∧
    (move_cursor_down { baseState with file := [[97, 10], []], cursor_x := 1 }).cursor_x =
      2 ^ 64 - 1 ∧
    ¬ (move_cursor_down { baseState with file := [[97, 10], []], cursor_x := 1 }).cursor_x ≤
      (lineAt (move_cursor_down { baseState with file := [[97, 10], []], cursor_x := 1 })
        (move_cursor_down { baseState with file := [[97, 10], []], cursor_x := 1 }).cursor_y).length := by
  refine ⟨⟨by decide, by decide⟩, by decide, by decide⟩

/-- Claim C4: inserting a newline at a valid cursor and then backspacing
from column 0 of the resulting next row restores the original buffer and
returns the cursor to its original (column, row) — the split and join are
exact inverses. -/
theorem claim_C4 (st : EditorState)
    (hy : st.cursor_y < st.file.length)
    (hx : st.cursor_x ≤ (lineAt st st.cursor_y).length) :
    delete_character (insert_newline st) = st := by
  unfold delete_character insert_newline
  rw [if_neg (by omega : ¬ (0:Nat) > 0), if_pos (Nat.succ_pos st.cursor_y)]
  rw [Nat.add_sub_cancel]
  simp only [lineAt]
  rw [getD_insertIdx_succ_lt]
  rw [getD_set_self _ _ _ hy]
  rw [getD_insertIdx_self _ _ _ (by simpa using hy)]
  rw [set_insertIdx_succ_comm, List.eraseIdx_insertIdx, List.set_set]
  have hdl : (List.take st.cursor_x (st.file.getD st.cursor_y []) ++ [10]).dropLast =
      List.take st.cursor_x (st.file.getD st.cursor_y []) := by simp
  rw [hdl, List.take_append_drop]
  rw [set_getD_self _ _ hy]
  have hlen : (List.take st.cursor_x (st.file.getD st.cursor_y [])).length = st.cursor_x := by
    simp only [List.length_take]
    simp only [lineAt] at hx
    omega
  rw [hlen]

/-- Claim C4 witness: `claim_C4` applied to the single line "abc" split at
column 2. -/
theorem claim_C4_witness :
    delete_character (insert_newline { baseState with file := [[97, 98, 99]], cursor_x := 2 }) =
      { baseState with file := [[97, 98, 99]], cursor_x := 2 } :=
  claim_C4 _ (by decide) (by decide)

/-- Claim C5: any sequence of character insertions at the cursor followed
by the same number of backspaces restores the entire editor state — in
particular the line content and the cursor column — to the original. -/
theorem claim_C5 (st : EditorState) (chs : List Nat)
    (hy : st.cursor_y < st.file.length)
    (hx : st.cursor_x ≤ (lineAt st st.cursor_y).length) :
    delete_chars chs.length (insert_chars st chs) = st := by
  induction chs generalizing st with
  | nil => rfl
  | cons ch rest ih =>
    have hy' : (insert_character st ch).cursor_y < (insert_character st ch).file.length := by
      simpa [insert_character] using hy
    have hx' : (insert_character st ch).cursor_x ≤
        (lineAt (insert_character st ch) (insert_character st ch).cursor_y).length := by
      simp only [insert_character, lineAt]
      rw [getD_set_self _ _ _ hy]
      rw [List.length_insertIdx _ _ (by simpa [lineAt] using hx)]
      simp only [lineAt] at hx
      omega
    have hstep : delete_chars rest.length (insert_chars (insert_character st ch) rest) =
        insert_character st ch := ih _ hy' hx'
    show delete_character
      (delete_chars rest.length (insert_chars (insert_character st ch) rest)) = st
    rw [hstep]
    exact insert_delete_step st ch hy hx

/-- Claim C5 witness: `claim_C5` applied to typing "hi" into the empty
one-line buffer and backspacing twice. -/
theorem claim_C5_witness :
    delete_chars 2 (insert_chars baseState [104, 105]) = baseState :=
  claim_C5 baseState [104, 105] (by decide) (by decide)

theorem load_lines_flatten : ∀ (bs cur : List Nat), (load_lines cur bs).flatten = cur ++ bs
  | [], cur => by cases cur <;> simp [load_lines]
  | b :: rest, cur => by
    by_cases h : b = 10
    · subst h
      simp [load_lines, load_lines_flatten rest []]
    · simp [load_lines, h, load_lines_flatten rest (cur ++ [b])]

theorem load_lines_ne_nil : ∀ (bs cur : List Nat), ∀ l ∈ load_lines cur bs, l ≠ []
  | [], cur, l, hl => by
    cases cur with
    | nil => simp [load_lines] at hl
    | cons a c =>
      simp [load_lines] at hl
      subst hl
      simp
  | b :: rest, cur, l, hl => by
    by_cases h : b = 10
    · simp [load_lines, h] at hl
      rcases hl with hl | hl
      · subst hl
        simp
      · exact load_lines_ne_nil rest [] l hl
    · simp [load_lines, h] at hl
      exact load_lines_ne_nil rest (cur ++ [b]) l hl

theorem load_lines_dropLast_last : ∀ (bs cur : List Nat),
    ∀ l ∈ (load_lines cur bs).dropLast, l.getLast? = some 10
  | [], cur, l, hl => by
    cases cur <;> simp [load_lines] at hl
  | b :: rest, cur, l, hl => by
    by_cases h : b = 10
    · simp only [load_lines, if_pos h] at hl
      rcases hL : load_lines [] rest with _ | ⟨x, t⟩
      · rw [hL] at hl
        simp at hl
      · rw [hL, List.dropLast_cons₂] at hl
        rcases List.mem_cons.mp hl with hl | hl
        · subst hl
          exact List.getLast?_concat cur
        · exact load_lines_dropLast_last rest [] l (by rw [hL]; exact hl)
    · simp only [load_lines, if_neg h] at hl
      exact load_lines_dropLast_last rest (cur ++ [b]) l hl

theorem load_lines_no_inner_newline : ∀ (bs cur : List Nat), (10 : Nat) ∉ cur →
    ∀ l ∈ load_lines cur bs, ∀ b2 ∈ l.dropLast, b2 ≠ 10
  | [], cur, hcur, l, hl, b2, hb => by
    cases cur with
    | nil => simp [load_lines] at hl
    | cons a c =>
      simp [load_lines] at hl
      subst hl
      exact fun he => hcur (he ▸ List.mem_of_mem_dropLast hb)
  | b :: rest, cur, hcur, l, hl, b2, hb => by
    by_cases h : b = 10
    · simp [load_lines, h] at hl
      rcases hl with hl | hl
      · subst hl
        rw [List.dropLast_concat] at hb
        exact fun he => hcur (he ▸ hb)
      · exact load_lines_no_inner_newline rest [] (by simp) l hl b2 hb
    · simp [load_lines, h] at hl
      refine load_lines_no_inner_newline rest (cur ++ [b]) ?_ l hl b2 hb
      intro hm
      rcases List.mem_append.mp hm with hm | hm
      · exact hcur hm
      · simp at hm
        exact h hm.symm

theorem claim_C7 :
    load_file [97, 98, 99, 10, 100, 101, 102] = [[97, 98, 99, 10], [100, 101, 102]] ∧
    (∀ content : List Nat, (load_file content).flatten = content) ∧
    (∀ content : List Nat, ∀ l ∈ load_file content, l ≠ []) ∧
    (∀ content : List Nat, ∀ l ∈ (load_file content).dropLast, l.getLast? = some 10) ∧
    (∀ content : List Nat, ∀ l ∈ load_file content, ∀ b ∈ l.dropLast, b ≠ 10) := by
  refine ⟨by decide, fun c => ?_, fun c => load_lines_ne_nil c [],
    fun c => load_lines_dropLast_last c [], fun c => load_lines_no_inner_newline c [] (by simp)⟩
  simpa using load_lines_flatten c []

theorem claim_C7_witness :
    load_file [97, 98, 99, 10, 100, 101, 102] = [[97, 98, 99, 10], [100, 101, 102]] ∧
    (load_file [97, 10, 10, 98]).flatten = [97, 10, 10, 98] ∧
    ([97, 10] : List Nat) ≠ [] ∧
    ([97, 10] : List Nat).getLast? = some 10 ∧
    (97 : Nat) ≠ 10 := by
  refine ⟨claim_C7.1, claim_C7.2.1 _, ?_, ?_, ?_⟩
  · exact claim_C7.2.2.1 [97, 10, 10, 98] [97, 10] (by decide)
  · exact claim_C7.2.2.2.1 [97, 10, 10, 98] [97, 10] (by decide)
  · exact claim_C7.2.2.2.2 [97, 10, 10, 98] [97, 10] (by decide) 97 (by decide)

theorem foldl_renderStep_no_tab : ∀ (l : List Nat) (n : Nat), (9 : Nat) ∉ l →
    l.foldl renderStep n = n + l.length
  | [], n, _ => by simp
  | b :: l, n, h => by
    have hb : b ≠ 9 := fun he => h (he ▸ List.mem_cons_self b l)
    rw [List.foldl_cons,
      foldl_renderStep_no_tab l (renderStep n b) (fun hm => h (List.mem_cons_of_mem b hm))]
    simp only [renderStep, if_neg hb, List.length_cons]
    omega

/-- Claim C3 counterexample: on the single line of ten tab bytes with the
cursor after them (byte column 10, rendered column 40), terminal 20
columns by 2 rows and both scroll offsets 0, the scroll update leaves the
left column at 0 because it compares the byte column 10 — not the
rendered column 40 — against the right edge, so the rendered cursor
column lands outside [left column, left column + visible columns). -/
theorem claim_C3_counterexample :
    (9 : Nat) ∈ lineAt { baseState with file := [[9, 9, 9, 9, 9, 9, 9, 9, 9, 9]], cursor_x := 10, terminal_cols := 20, terminal_rows := 2 } 0 ∧
    ({ baseState with file := [[9, 9, 9, 9, 9, 9, 9, 9, 9, 9]], cursor_x := 10, terminal_cols := 20, terminal_rows := 2 } : EditorState).cursor_x ≤
      (lineAt { baseState with file := [[9, 9, 9, 9, 9, 9, 9, 9, 9, 9]], cursor_x := 10, terminal_cols := 20, terminal_rows := 2 } 0).length ∧
    ¬ ((scroll_screen { baseState with file := [[9, 9, 9, 9, 9, 9, 9, 9, 9, 9]], cursor_x := 10, terminal_cols := 20, terminal_rows := 2 }).rendered_x <
        (scroll_screen { baseState with file := [[9, 9, 9, 9, 9, 9, 9, 9, 9, 9]], cursor_x := 10, terminal_cols := 20, terminal_rows := 2 }).current_column +
        (scroll_screen { baseState with file := [[9, 9, 9, 9, 9, 9, 9, 9, 9, 9]], cursor_x := 10, terminal_cols := 20, terminal_rows := 2 }).terminal_cols) := by
  refine ⟨by decide, by decide, by decide⟩

/-- Claim C3 (amended): after `scroll_screen`, for a valid cursor the row
invariant top ≤ cursor row < top + terminal rows holds whenever the
terminal has at least one row, and the rendered-column invariant
left ≤ rendered column < left + terminal columns holds whenever the
terminal has at least one column and the line bytes before the cursor
contain no tab (so the rendered column equals the byte column); with tabs
before the cursor the right-edge bound can fail, because the horizontal
check compares the byte column against the right edge. -/
theorem claim_C3_amended (st : EditorState)
    (hx : st.cursor_x ≤ (lineAt st st.cursor_y).length) :
    (1 ≤ st.terminal_rows →
      (scroll_screen st).current_row ≤ (scroll_screen st).cursor_y ∧
      (scroll_screen st).cursor_y <
        (scroll_screen st).current_row + (scroll_screen st).terminal_rows) ∧
    (1 ≤ st.terminal_cols → (9 : Nat) ∉ (lineAt st st.cursor_y).take st.cursor_x →
      (scroll_screen st).current_column ≤ (scroll_screen st).rendered_x ∧
      (scroll_screen st).rendered_x <
        (scroll_screen st).current_column + (scroll_screen st).terminal_cols) := by
  constructor
  · intro hrows
    simp only [scroll_screen]
    split_ifs <;> first | omega | (dsimp only at *; omega)
  · intro hcols hnotab
    have hrv : get_render_cursor_x st = st.cursor_x := by
      unfold get_render_cursor_x
      rw [foldl_renderStep_no_tab _ _ hnotab]
      simp only [List.length_take]
      omega
    simp only [scroll_screen, hrv]
    split_ifs <;> first | omega | (dsimp only at *; omega)

/-- Claim C3 witness: `claim_C3_amended` applied to the tab-free line
"ab\n" with the cursor at column 1 on a 5-by-3 terminal. -/
theorem claim_C3_witness :
    ((scroll_screen { baseState with file := [[97, 98, 10]], cursor_x := 1, terminal_cols := 5, terminal_rows := 3 }).current_row ≤
      (scroll_screen { baseState with file := [[97, 98, 10]], cursor_x := 1, terminal_cols := 5, terminal_rows := 3 }).cursor_y ∧
    (scroll_screen { baseState with file := [[97, 98, 10]], cursor_x := 1, terminal_cols := 5, terminal_rows := 3 }).cursor_y <
      (scroll_screen { baseState with file := [[97, 98, 10]], cursor_x := 1, terminal_cols := 5, terminal_rows := 3 }).current_row +
      (scroll_screen { baseState with file := [[97, 98, 10]], cursor_x := 1, terminal_cols := 5, terminal_rows := 3 }).terminal_rows) ∧
    ((scroll_screen { baseState with file := [[97, 98, 10]], cursor_x := 1, terminal_cols := 5, terminal_rows := 3 }).current_column ≤
      (scroll_screen { baseState with file := [[97, 98, 10]], cursor_x := 1, terminal_cols := 5, terminal_rows := 3 }).rendered_x ∧
    (scroll_screen { baseState with file := [[97, 98, 10]], cursor_x := 1, terminal_cols := 5, terminal_rows := 3 }).rendered_x <
      (scroll_screen { baseState with file := [[97, 98, 10]], cursor_x := 1, terminal_cols := 5, terminal_rows := 3 }).current_column +
      (scroll_screen { baseState with file := [[97, 98, 10]], cursor_x := 1, terminal_cols := 5, terminal_rows := 3 }).terminal_cols) :=
  ⟨(claim_C3_amended { baseState with file := [[97, 98, 10]], cursor_x := 1, terminal_cols := 5, terminal_rows := 3 } (by decide)).1 (by decide),
   (claim_C3_amended { baseState with file := [[97, 98, 10]], cursor_x := 1, terminal_cols := 5, terminal_rows := 3 } (by decide)).2 (by decide) (by decide)⟩

end TinyEdit
